import Mathlib

/-!
Verification development for the Pixiv-XP-Pusher repository.

Shallow embedding of the parts of the program that the checked properties
talk about: the SQLite data layer (src/database.py), the content fetcher
(src/fetcher.py), the orchestrator's push-recording step (src/main.py) and
the two notifier backends (src/notifier/telegram.py, src/notifier/onebot.py).

SQL REAL columns and Python floats are modelled as rationals, SQL INTEGER
columns as naturals.  Each table is modelled as a list of rows in insertion
order; SQL ORDER BY is modelled by sorting the row list.
-/

namespace PixivXP

/-! ## Store: push history (src/database.py, push_history table)

The table has PRIMARY KEY illust_id.  A row is (illust_id, source).
INSERT OR REPLACE removes any row with the same primary key and inserts
the new row. -/

/-- Row list of the push_history table: (illust_id, source). -/
abbrev PushHistory := List (Nat × String)

/-- Embedding of database.mark_pushed: INSERT OR REPLACE keyed on illust_id. -/
def mark_pushed (illust_id : Nat) (source : String) (h : PushHistory) : PushHistory :=
  h.filter (fun r => r.1 ≠ illust_id) ++ [(illust_id, source)]

/-- Embedding of database.is_pushed: SELECT 1 FROM push_history WHERE illust_id = ?. -/
def is_pushed (illust_id : Nat) (h : PushHistory) : Bool :=
  h.any (fun r => r.1 = illust_id)

/-- Number of push_history rows whose key is the given illust_id. -/
def pushRowCount (illust_id : Nat) (h : PushHistory) : Nat :=
  (h.filter (fun r => r.1 = illust_id)).length

/-! ## Association-list helpers shared by several table models

Python dict construction iterates pairs in order, a later pair with the same
key overwriting the earlier one while keeping its position; these helpers
model that and plain key lookup. -/

/-- Lookup of the first row with the given key. -/
def alookup {α β : Type} [DecidableEq α] (k : α) : List (α × β) → Option β
  | [] => none
  | (k2, v) :: rest => if k2 = k then some v else alookup k rest

/-- Python dict assignment d[k] = v on an ordered association list:
overwrite in place when the key exists, append otherwise. -/
def dictInsert {α β : Type} [DecidableEq α] (m : List (α × β)) (k : α) (v : β) :
    List (α × β) :=
  if (m.map Prod.fst).contains k then
    m.map (fun p => if p.1 = k then (p.1, v) else p)
  else m ++ [(k, v)]

/-- Python dict comprehension over a list of pairs. -/
def pyDict {α β : Type} [DecidableEq α] (rows : List (α × β)) : List (α × β) :=
  rows.foldl (fun m p => dictInsert m p.1 p.2) []

/-- Keys of an association list are pairwise distinct. -/
def NodupKeys {α β : Type} (l : List (α × β)) : Prop :=
  (l.map Prod.fst).Nodup

instance {α β : Type} [DecidableEq α] (l : List (α × β)) : Decidable (NodupKeys l) :=
  inferInstanceAs (Decidable (l.map Prod.fst).Nodup)

/-! ## Store: XP profile (src/database.py, xp_profile table) -/

/-- Row list of the xp_profile table: (tag, weight). -/
abbrev ProfileRows := List (String × ℚ)

/-- SQL ORDER BY weight DESC comparison used by get_xp_profile. -/
def weightDesc (a b : String × ℚ) : Prop := b.2 ≤ a.2

instance : DecidableRel weightDesc := fun a b => inferInstanceAs (Decidable (b.2 ≤ a.2))

instance : IsTotal (String × ℚ) weightDesc := ⟨fun a b => le_total b.2 a.2⟩

instance : IsTrans (String × ℚ) weightDesc := ⟨fun _ _ _ h1 h2 => le_trans h2 h1⟩

/-- Embedding of database.update_xp_profile: DELETE FROM xp_profile, then
INSERT every (tag, weight) pair of the given profile.  The previous table
contents are discarded. -/
def update_xp_profile (_prev : ProfileRows) (profile : ProfileRows) : ProfileRows :=
  profile

/-- Embedding of database.get_xp_profile: SELECT tag, weight FROM xp_profile
ORDER BY weight DESC, collected into a Python dict. -/
def get_xp_profile (rows : ProfileRows) : ProfileRows :=
  pyDict (List.insertionSort weightDesc rows)

/-! ## Store: tag blacklist (src/database.py, tag_blacklist table) -/

/-- Row list of the tag_blacklist table: (tag, dislike_count). -/
abbrev BlacklistRows := List (String × Nat)

/-- Embedding of database.increment_tag_dislike: upsert dislike_count + 1
(INSERT .. VALUES (?, 1) ON CONFLICT DO UPDATE SET dislike_count =
dislike_count + 1), then SELECT the current count, 0 when no row exists.
Returns (returned count, new table). -/
def increment_tag_dislike (tag : String) (bl : BlacklistRows) : Nat × BlacklistRows :=
  let bl2 :=
    if (bl.map Prod.fst).contains tag then
      bl.map (fun p => if p.1 = tag then (p.1, p.2 + 1) else p)
    else bl ++ [(tag, 1)]
  ((alookup tag bl2).getD 0, bl2)

/-- Embedding of database.get_blacklisted_tags: SELECT tag FROM tag_blacklist
WHERE dislike_count >= 1. -/
def get_blacklisted_tags (bl : BlacklistRows) : List String :=
  (bl.filter (fun p => 1 ≤ p.2)).map Prod.fst

/-- State after k successive calls of increment_tag_dislike on the same tag,
together with the value returned by the k-th call (0 when k = 0). -/
def iterate_dislike (tag : String) (bl : BlacklistRows) : Nat → Nat × BlacklistRows
  | 0 => (0, bl)
  | k + 1 => increment_tag_dislike tag (iterate_dislike tag bl k).2

/-! ## Store: tag mapping stats (src/database.py, tag_mapping_stats table) -/

/-- Row of the tag_mapping_stats table. -/
structure TagMapRow where
  normalized_tag : String
  original_tag : String
  frequency : Nat
deriving DecidableEq, Repr

/-- SQL ORDER BY frequency DESC comparison used by get_best_search_tag. -/
def freqDesc (a b : TagMapRow) : Prop := b.frequency ≤ a.frequency

instance : DecidableRel freqDesc := fun a b =>
  inferInstanceAs (Decidable (b.frequency ≤ a.frequency))

instance : IsTotal TagMapRow freqDesc := ⟨fun a b => Nat.le_total b.frequency a.frequency⟩

instance : IsTrans TagMapRow freqDesc := ⟨fun _ _ _ h1 h2 => Nat.le_trans h2 h1⟩

/-- Embedding of database.get_best_search_tag: SELECT original_tag FROM
tag_mapping_stats WHERE normalized_tag = ? ORDER BY frequency DESC LIMIT 1;
the normalized tag itself when no row matches. -/
def get_best_search_tag (rows : List TagMapRow) (normalized_tag : String) : String :=
  match List.insertionSort freqDesc
      (rows.filter (fun r => r.normalized_tag = normalized_tag)) with
  | [] => normalized_tag
  | r :: _ => r.original_tag

/-! ## Store: whole-database state and reset (src/database.py) -/

/-- All tables created by database.init_db, each as a list of rows.  Row
types record only the columns the program reads back. -/
structure Database where
  push_history : PushHistory
  xp_profile : ProfileRows
  xp_tag_pairs : List (String × String × ℚ)
  feedback : List (Nat × String)
  bookmarks : List Nat
  tag_blacklist : BlacklistRows
  illust_cache : List (Nat × List String)
  ai_error_logs : List (Nat × List String × String × String)
  xp_bookmarks : List (Nat × Nat × List String)
  system_state : List (String × String)
  tag_mapping_stats : List TagMapRow
  ai_tag_cache : List (String × Option String)
deriving Repr

/-- Embedding of database.reset_xp_data: DELETE FROM xp_profile, xp_tag_pairs,
tag_mapping_stats and ai_error_logs; every other table is untouched. -/
def reset_xp_data (db : Database) : Database :=
  { db with
    xp_profile := []
    xp_tag_pairs := []
    tag_mapping_stats := []
    ai_error_logs := [] }

/-! ## Tag expansion (src/utils.py) -/

/-- Embedding of utils.TAG_TRANSLATIONS, the built-in synonym dictionary. -/
def TAG_TRANSLATIONS : List (String × String) :=
  [("white_hair", "白髪 OR 銀髪 OR white_hair"),
   ("silver_hair", "銀髪 OR 白髪"),
   ("grey_hair", "灰髪"),
   ("black_hair", "黒髪"),
   ("blonde_hair", "金髪"),
   ("red_hair", "赤髪"),
   ("blue_hair", "青髪"),
   ("pink_hair", "ピンク髪"),
   ("green_hair", "緑髪"),
   ("purple_hair", "紫髪"),
   ("brown_hair", "茶髪"),
   ("long_hair", "ロングヘア OR 長髪"),
   ("short_hair", "ショートヘア OR 短髪"),
   ("twintails", "ツインテール"),
   ("ponytail", "ポニーテール"),
   ("large_breasts", "巨乳"),
   ("flat_chest", "貧乳"),
   ("maid", "メイド"),
   ("swimsuit", "水着"),
   ("school_uniform", "セーラー服 OR 制服 OR ブレザー"),
   ("pantyhose", "パンスト OR ストッキング"),
   ("thighhighs", "ニーソ OR ニーソックス"),
   ("glasses", "眼鏡 OR メガネ"),
   ("kimono", "着物 OR 浴衣"),
   ("bunny_suit", "バニー OR バニーガール"),
   ("cat_ears", "猫耳 OR ネコミミ"),
   ("genshin_impact", "原神 OR GenshinImpact"),
   ("原神", "原神 OR GenshinImpact"),
   ("blue_archive", "ブルーアーカイブ OR BlueArchive OR 碧蓝档案"),
   ("ブルーアーカイブ", "ブルーアーカイブ OR BlueArchive OR 碧蓝档案"),
   ("ブルアカ", "ブルーアーカイブ OR BlueArchive OR 碧蓝档案"),
   ("arknights", "アークナイツ OR Arknights OR 明日方舟"),
   ("アークナイツ", "アークナイツ OR Arknights OR 明日方舟"),
   ("明日方舟", "アークナイツ OR Arknights OR 明日方舟"),
   ("fate_grand_order", "FGO OR Fate/GrandOrder"),
   ("azur_lane", "アズールレーン"),
   ("hololive", "ホロライブ"),
   ("scenery", "風景"),
   ("cyberpunk", "サイバーパンク"),
   ("steampunk", "スチームパンク"),
   ("fantasy", "ファンタジー")]

/-- Check that the first character list starts the second one. -/
def pyStartsWith : List Char → List Char → Bool
  | [], _ => true
  | _ :: _, [] => false
  | a :: as, b :: bs => a == b && pyStartsWith as bs

/-- Check that the first character list occurs contiguously in the second. -/
def pySubstrList : List Char → List Char → Bool
  | n, [] => n.isEmpty
  | n, b :: bs => pyStartsWith n (b :: bs) || pySubstrList n bs

/-- Python substring containment test (the in operator on strings). -/
def pyIn (needle hay : String) : Bool :=
  pySubstrList needle.toList hay.toList

/-- Lexicographic comparison of character lists by code point. -/
def pyStrLtList : List Char → List Char → Bool
  | [], [] => false
  | [], _ :: _ => true
  | _ :: _, [] => false
  | a :: as, b :: bs => if a = b then pyStrLtList as bs else decide (a.toNat < b.toNat)

/-- Python string less-than, used by sorted() on strings. -/
def pyStrLt (a b : String) : Bool :=
  pyStrLtList a.toList b.toList

/-- Embedding of utils.expand_search_query: look the tag up in the synonym
dictionary (identity when absent) and parenthesize when the expansion is a
disjunction. -/
def expand_search_query (tag : String) : String :=
  let expanded := (alookup tag TAG_TRANSLATIONS).getD tag
  if pyIn " OR " expanded then "(" ++ expanded ++ ")" else expanded

/-! ## Fetcher (src/fetcher.py) -/

/-- Python int() truncation toward zero, on a rational. -/
def pyInt (q : ℚ) : ℤ :=
  q.num.tdiv (q.den : ℤ)

/-- Embedding of the first ContentFetcher._adaptive_threshold definition
(fetcher.py lines 41-68), the weight-based formula: multiplier =
max(0.3, tag_weight), halved for combination searches, floor at 100.
In the source this method is shadowed by a second definition of the same
name later in the class body and is never invoked. -/
def adaptive_threshold_weight (base : ℤ) (tag_weight : ℚ) (is_combination : Bool) : ℤ :=
  let m1 := max (3 / 10 : ℚ) tag_weight
  let m2 := if is_combination then m1 * (1 / 2) else m1
  max 100 (pyInt ((base : ℚ) * m2))

/-- Embedding of the second ContentFetcher._adaptive_threshold definition
(fetcher.py lines 286-297), the tag-count-based formula that shadows the
first one: multiplier = 1.0 - (len(tags) - 1) * 0.2, floor at 100.
ContentFetcher.discover never calls it either. -/
def adaptive_threshold_by_tags (tags : List String) (base : ℤ) : ℤ :=
  let multiplier := (1 : ℚ) - ((tags.length : ℚ) - 1) * (1 / 5)
  max 100 (pyInt ((base : ℚ) * multiplier))

/-- SQL ORDER BY weight DESC comparison on xp_tag_pairs rows. -/
def pairWeightDesc (a b : String × String × ℚ) : Prop := b.2.2 ≤ a.2.2

instance : DecidableRel pairWeightDesc := fun a b =>
  inferInstanceAs (Decidable (b.2.2 ≤ a.2.2))

instance : IsTotal (String × String × ℚ) pairWeightDesc := ⟨fun a b => le_total b.2.2 a.2.2⟩

instance : IsTrans (String × String × ℚ) pairWeightDesc := ⟨fun _ _ _ h1 h2 => le_trans h2 h1⟩

/-- Embedding of database.get_top_tag_pairs: SELECT tag1, tag2, weight FROM
xp_tag_pairs ORDER BY weight DESC LIMIT limit. -/
def get_top_tag_pairs (rows : List (String × String × ℚ)) (limit : Nat) :
    List (String × String × ℚ) :=
  (List.insertionSort pairWeightDesc rows).take limit

/-- One search_illusts request issued by ContentFetcher.discover, with the
arguments the claims are about. -/
structure SearchCall where
  tags : List String
  bookmark_threshold : Nat
  date_range_days : Nat
  limit : Nat
deriving DecidableEq, Repr

/-- Query expansion performed per tag inside the pair loop of discover
(fetcher.py lines 115-136): splice the highest-frequency raw tag from
tag_mapping_stats into the dictionary expansion unless redundant. -/
def build_final_query (stats : List TagMapRow) (tag : String) : String :=
  let raw := get_best_search_tag stats tag
  let base := expand_search_query tag
  if raw ≠ tag ∧ pyIn raw base = false then
    if pyIn "(" base then base.dropRight 1 ++ " OR " ++ raw ++ ")"
    else "(" ++ base ++ " OR " ++ raw ++ ")"
  else base

/-- Loop state of the pair-search phase of discover: accumulated result ids,
used pair keys, and the search calls issued so far. -/
structure PairLoopState where
  illusts : List Nat
  used : List (String × String)
  calls : List SearchCall
deriving DecidableEq, Repr

/-- Embedding of the pair-search loop of ContentFetcher.discover (fetcher.py
lines 92-145).  The Pixiv client is an oracle from a search call to the ids
it returns.  Stops once accumulated results reach 60 percent of the quota;
marks each pair used, skips redundant expansions, and issues the search with
bookmark_threshold = search threshold // 2 and a slice of 30. -/
def discover_pairs (stats : List TagMapRow) (search_threshold date_range limit : Nat)
    (client : SearchCall → List Nat) :
    List (String × String × ℚ) → PairLoopState → PairLoopState
  | [], st => st
  | (t1, t2, _) :: rest, st =>
    -- len(all_illusts) >= limit * 0.6, multiplied through by 5: for integer
    -- operands this is equivalent to the source's floating-point comparison
    if limit * 3 ≤ st.illusts.length * 5 then st
    else
      let pair_key := if pyStrLt t2 t1 then (t2, t1) else (t1, t2)
      if st.used.contains pair_key then
        discover_pairs stats search_threshold date_range limit client rest st
      else
        let st1 : PairLoopState := ⟨st.illusts, st.used ++ [pair_key], st.calls⟩
        let q1 := expand_search_query t1
        let q2 := expand_search_query t2
        if q1 == q2 || pyIn t1 q2 || pyIn t2 q1 then
          discover_pairs stats search_threshold date_range limit client rest st1
        else
          let threshold := search_threshold / 2
          let fq1 := build_final_query stats t1
          let fq2 := build_final_query stats t2
          let call : SearchCall := ⟨[fq1, fq2], threshold, date_range, 30⟩
          let res := client call
          discover_pairs stats search_threshold date_range limit client rest
            ⟨st1.illusts ++ res, st1.used, st1.calls ++ [call]⟩

/-- Pair-search phase of ContentFetcher.discover, starting from the top 50
tag pairs and an empty loop state. -/
def discover_pair_phase (db_pairs : List (String × String × ℚ)) (stats : List TagMapRow)
    (search_threshold date_range limit : Nat) (client : SearchCall → List Nat) :
    PairLoopState :=
  discover_pairs stats search_threshold date_range limit client
    (get_top_tag_pairs db_pairs 50) ⟨[], [], []⟩

/-! ## Orchestrator: push recording (src/main.py) -/

/-- Candidate work, restricted to the fields the embedded steps read. -/
structure Illust where
  id : Nat
  user_id : Nat
  page_count : Nat
  ill_type : String
deriving DecidableEq, Repr

/-- Source string recorded by main_task for one pushed work (main.py line
291): subscription when the author is in the manually configured
subscribed-artists set, search otherwise. -/
def push_source (user_id : Nat) (manual_subs : List Nat) : String :=
  if manual_subs.contains user_id then "subscription" else "search"

/-- Embedding of the push-recording loop of main_task (main.py lines
285-292): for each successfully sent id found in the filtered-works dict,
the (illust_id, source) pair passed to mark_pushed, in order. -/
def record_pushes (all_sent_ids : List Nat) (filtered : List Illust)
    (manual_subs : List Nat) : List (Nat × String) :=
  all_sent_ids.filterMap (fun pid =>
    (alookup pid (pyDict (filtered.map (fun i => (i.id, i))))).map
      (fun ill => (pid, push_source ill.user_id manual_subs)))

/-! ## Telegram notifier (src/notifier/telegram.py) -/

/-- Delivery shape chosen by TelegramNotifier._send_single for one work. -/
inductive SendKind
  | video
  | photo (long_work : Bool)
  | mediaGroup
deriving DecidableEq, Repr

/-- Embedding of the dispatch in TelegramNotifier._send_single (telegram.py
lines 2389-2413): ugoira works go out as video; a work with more pages than
max_pages is degraded to a single cover photo with the long-work annotation;
a single-page work, or cover_link mode, sends one photo; otherwise the pages
go out as a media group. -/
def send_single_kind (ill_type multi_page_mode : String) (max_pages page_count : Nat) :
    SendKind :=
  if ill_type = "ugoira" then .video
  else if max_pages < page_count then .photo true
  else if page_count = 1 ∨ multi_page_mode = "cover_link" then .photo false
  else .mediaGroup

/-- The message-id to illust-id dict held by TelegramNotifier, in insertion
order. -/
abbrev MessageMap := List (Nat × Nat)

/-- Embedding of the eviction at the end of TelegramNotifier._send_photo
(telegram.py lines 2463-2467): when the map holds more than 200 entries,
delete the oldest 100 keys. -/
def photo_evict (m : MessageMap) : MessageMap :=
  if 200 < m.length then m.drop 100 else m

/-- Map effect of one TelegramNotifier._send_photo call: record every sent
message, then run the eviction once. -/
def send_photo_map (m : MessageMap) (sent : List (Nat × Nat)) : MessageMap :=
  photo_evict (sent.foldl (fun acc p => dictInsert acc p.1 p.2) m)

/-- Map effect of one TelegramNotifier._send_video call (telegram.py lines
2471-2570): messages sent through the reverse-proxy and transcoding branches
are recorded, and no eviction ever runs. -/
def send_video_map (m : MessageMap) (sent : List (Nat × Nat)) : MessageMap :=
  sent.foldl (fun acc p => dictInsert acc p.1 p.2) m

/-- Map effect of one TelegramNotifier._send_media_group call (telegram.py
lines 2572-2623): the map is never written. -/
def send_media_group_map (m : MessageMap) : MessageMap :=
  m

/-- Acknowledgment sent back to a sender at a handler's entry: a
no-permission alert, a no-permission reply text, or the /help text. -/
inductive AuthReply
  | alertNoPermission (user_id : Nat)
  | textNoPermission (user_id : Nat)
  | helpText
deriving DecidableEq, Repr

/-- Allow-list check used by every TelegramNotifier handler: an empty
configured list (None in the source) allows everyone. -/
def telegram_allowed (allowed_users : List Nat) (user_id : Nat) : Bool :=
  allowed_users.isEmpty || allowed_users.contains user_id

/-- Reply emitted at the authorization gate of the button callback handler
(telegram.py lines 697-705): an unauthorized sender receives a no-permission
alert through query.answer with show_alert set. -/
def callback_auth_reply (allowed_users : List Nat) (user_id : Nat) : Option AuthReply :=
  if telegram_allowed allowed_users user_id then none
  else some (.alertNoPermission user_id)

/-- Reply emitted at the authorization gate shared by the gated command
handlers (cmd_push at telegram.py lines 1019-1024, and likewise cmd_search,
cmd_schedule, cmd_xp, cmd_stats, cmd_block, cmd_unblock, cmd_mute,
cmd_unmute, cmd_menu for /menu and /start, cmd_batch, cmd_block_artist,
cmd_unblock_artist): an unauthorized sender receives a no-permission reply
text.  cmd_help is not among them, see help_command_reply. -/
def command_auth_reply (allowed_users : List Nat) (user_id : Nat) : Option AuthReply :=
  if telegram_allowed allowed_users user_id then none
  else some (.textNoPermission user_id)

/-- Embedding of cmd_help (telegram.py lines 1741-1762, registered for
/help at line 1901): the handler has no authorization gate and replies the
help text to every sender, whether or not an allow-list is configured. -/
def help_command_reply (_allowed_users : List Nat) (_user_id : Nat) : Option AuthReply :=
  some .helpText

/-- Reply emitted at the authorization gate of the plain-text message
handler (telegram.py lines 892-896): unauthorized senders are dropped with
no reply at all. -/
def message_auth_reply (_allowed_users : List Nat) (_user_id : Nat) : Option AuthReply :=
  none

/-! ## OneBot notifier (src/notifier/onebot.py) -/

/-- Helper for the Python str.split() semantics: split a character list on
runs of whitespace, dropping empty pieces; the accumulator holds the current
word reversed. -/
def pySplitAux : List Char → List Char → List String
  | [], acc => if acc.isEmpty then [] else [String.mk acc.reverse]
  | c :: cs, acc =>
    if c = ' ' ∨ c = '\t' ∨ c = '\n' then
      if acc.isEmpty then pySplitAux cs [] else String.mk acc.reverse :: pySplitAux cs []
    else pySplitAux cs (c :: acc)

/-- Python str.split() with no arguments. -/
def pySplit (s : String) : List String :=
  pySplitAux s.toList []

/-- Decimal parse of a nonempty all-digit string; none otherwise, modelling
the int() call whose ValueError the handler swallows. -/
def pyParseNat : List Char → Option Nat
  | [] => none
  | cs =>
    if cs.all (fun c => c.isDigit) then
      some (cs.foldl (fun n c => n * 10 + (c.toNat - 48)) 0)
    else none

/-- Embedding of OneBotNotifier._process_message (onebot.py lines 291-324):
returns the list of reply texts sent back.  The gate is the Python check
if self.master_id and sender_id != self.master_id, where both None and 0
are falsy (a configured master id of 0 disables the gate): with a nonzero
master id and a differing sender the handler returns before sending
anything; otherwise a two-token feedback command is acknowledged. -/
def onebot_process_message (master_id : Option Nat) (sender_id : Nat)
    (raw_message : String) : List String :=
  if (match master_id with
      | some m => decide (m ≠ 0) && (sender_id != m)
      | none => false) then []
  else
    match pySplit raw_message with
    | [a, code] =>
      match pyParseNat a.toList with
      | some illust_id =>
        if code = "1" then ["❤️ 已记录对作品 " ++ toString illust_id ++ " 的喜欢"]
        else if code = "2" then ["👎 已记录对作品 " ++ toString illust_id ++ " 的不喜欢"]
        else []
      | none => []
    | _ => []

/-! ## Helper lemmas -/

/-- Lookup is invariant under permutation of an association list with
pairwise-distinct keys. -/
theorem alookup_perm {α β : Type} [DecidableEq α] {l1 l2 : List (α × β)}
    (h : l1.Perm l2) : NodupKeys l1 → ∀ k, alookup k l1 = alookup k l2 := by
  induction h with
  | nil => intro _ _; rfl
  | cons x h ih =>
    intro nd k
    obtain ⟨x1, x2⟩ := x
    have ndt : NodupKeys _ := (List.nodup_cons.mp nd).2
    by_cases hx : x1 = k
    · simp [alookup, hx]
    · simp [alookup, hx, ih ndt k]
  | swap x y l =>
    intro nd k
    obtain ⟨x1, x2⟩ := x
    obtain ⟨y1, y2⟩ := y
    have h0 : (y1 :: x1 :: l.map Prod.fst).Nodup := nd
    have hxy : y1 ≠ x1 := by
      intro he
      exact (List.nodup_cons.mp h0).1 (by simp [he])
    by_cases h1 : y1 = k
    · subst h1
      simp [alookup, hxy.symm]
    · by_cases h2 : x1 = k <;> simp [alookup, h1, h2]
  | trans h1 h2 ih1 ih2 =>
    intro nd k
    have ndm : NodupKeys _ := ((h1.map Prod.fst).nodup_iff).mp nd
    exact (ih1 nd k).trans (ih2 ndm k)

/-- A key that does not occur among the keys of an association list looks up
to none. -/
theorem alookup_eq_none {α β : Type} [DecidableEq α] {l : List (α × β)} {k : α} :
    alookup k l = none ↔ k ∉ l.map Prod.fst := by
  induction l with
  | nil => simp [alookup]
  | cons p rest ih =>
    obtain ⟨p1, p2⟩ := p
    by_cases hp : p1 = k
    · simp [alookup, hp]
    · simp [alookup, hp, ih, Ne.symm hp]

/-- A successful lookup produces a pair of the list. -/
theorem alookup_mem {α β : Type} [DecidableEq α] {l : List (α × β)} {k : α} {v : β} :
    alookup k l = some v → (k, v) ∈ l := by
  induction l with
  | nil => simp [alookup]
  | cons p rest ih =>
    obtain ⟨p1, p2⟩ := p
    intro h
    by_cases hp : p1 = k
    · subst hp
      have h2 : p2 = v := by simpa [alookup] using h
      subst h2
      exact List.mem_cons_self _ _
    · simp only [alookup, if_neg hp] at h
      exact List.mem_cons_of_mem _ (ih h)

/-- Folding Python dict insertion over rows whose keys are fresh for the
accumulator and pairwise distinct just appends the rows. -/
theorem foldl_dictInsert_fresh {α β : Type} [DecidableEq α] :
    ∀ (rows m : List (α × β)), NodupKeys rows →
      (∀ p ∈ rows, p.1 ∉ m.map Prod.fst) →
      rows.foldl (fun acc p => dictInsert acc p.1 p.2) m = m ++ rows
  | [], m, _, _ => by simp
  | r :: rs, m, nd, fresh => by
    have hcon : (m.map Prod.fst).contains r.1 = false := by
      simp [fresh r (List.mem_cons_self _ _)]
    have h1 : dictInsert m r.1 r.2 = m ++ [(r.1, r.2)] := by
      unfold dictInsert
      rw [hcon]
      simp
    have ndt : NodupKeys rs := (List.nodup_cons.mp nd).2
    have hkey : r.1 ∉ rs.map Prod.fst := (List.nodup_cons.mp nd).1
    have fresh2 : ∀ p ∈ rs, p.1 ∉ (m ++ [(r.1, r.2)]).map Prod.fst := by
      intro p hp
      simp only [List.map_append, List.mem_append, List.map_cons, List.map_nil,
        List.mem_singleton]
      rintro (hm | he)
      · exact fresh p (List.mem_cons_of_mem _ hp) hm
      · exact hkey (he ▸ List.mem_map_of_mem Prod.fst hp)
    calc (r :: rs).foldl (fun acc p => dictInsert acc p.1 p.2) m
        = rs.foldl (fun acc p => dictInsert acc p.1 p.2) (m ++ [(r.1, r.2)]) := by
          rw [List.foldl_cons, h1]
      _ = m ++ [(r.1, r.2)] ++ rs := foldl_dictInsert_fresh rs _ ndt fresh2
      _ = m ++ r :: rs := by simp

/-- Python dict construction from rows with pairwise-distinct keys returns
the rows unchanged. -/
theorem pyDict_eq_self {α β : Type} [DecidableEq α] {rows : List (α × β)}
    (nd : NodupKeys rows) : pyDict rows = rows := by
  have := foldl_dictInsert_fresh rows [] nd (by simp)
  simpa [pyDict] using this

/-! ## C1 -/

/-- C1: after mark_pushed(id, s) the work reads back as pushed, and a second
mark_pushed(id, s2) neither errors (the operation is total) nor duplicates
history: exactly one push_history row for the id remains, keeping the push
at-most-once per work-id. -/
theorem markPushed_isPushed_no_duplicate (h : PushHistory) (id : Nat) (s s2 : String) :
    is_pushed id (mark_pushed id s h) = true ∧
    pushRowCount id (mark_pushed id s2 (mark_pushed id s h)) = 1 ∧
    pushRowCount id (mark_pushed id s h) = 1 := by
  refine ⟨?_, ?_, ?_⟩
  · simp [is_pushed, mark_pushed, List.any_append]
  · simp [pushRowCount, mark_pushed, List.filter_append, List.filter_filter]
  · simp [pushRowCount, mark_pushed, List.filter_append, List.filter_filter]

/-! ## C9 -/

/-- C9: the reset-xp operation empties exactly the xp_profile, xp_tag_pairs,
tag_mapping_stats and ai_error_logs tables and leaves every other table of
the database, in particular push history, feedback and the tag blacklist,
unchanged. -/
theorem resetXp_truncates_exactly (db : Database) :
    (reset_xp_data db).xp_profile = [] ∧
    (reset_xp_data db).xp_tag_pairs = [] ∧
    (reset_xp_data db).tag_mapping_stats = [] ∧
    (reset_xp_data db).ai_error_logs = [] ∧
    (reset_xp_data db).push_history = db.push_history ∧
    (reset_xp_data db).feedback = db.feedback ∧
    (reset_xp_data db).tag_blacklist = db.tag_blacklist ∧
    (reset_xp_data db).bookmarks = db.bookmarks ∧
    (reset_xp_data db).illust_cache = db.illust_cache ∧
    (reset_xp_data db).xp_bookmarks = db.xp_bookmarks ∧
    (reset_xp_data db).system_state = db.system_state ∧
    (reset_xp_data db).ai_tag_cache = db.ai_tag_cache := by
  simp [reset_xp_data]

/-! ## C5 -/

/-- C5: replacing the profile with a map P and reading it back returns
exactly P, whatever was stored before: the returned row list is a
permutation of P (same tag set) and every tag looks up to the same
weight. -/
theorem replaceProfile_getProfile_roundtrip (prev P : ProfileRows) (nd : NodupKeys P) :
    (get_xp_profile (update_xp_profile prev P)).Perm P ∧
    ∀ t, alookup t (get_xp_profile (update_xp_profile prev P)) = alookup t P := by
  have hperm := List.perm_insertionSort weightDesc P
  have ndS : NodupKeys (List.insertionSort weightDesc P) := by
    have hmap : ((List.insertionSort weightDesc P).map Prod.fst).Perm (P.map Prod.fst) :=
      hperm.map Prod.fst
    exact hmap.nodup_iff.mpr nd
  have hd : get_xp_profile (update_xp_profile prev P) = List.insertionSort weightDesc P := by
    simp [get_xp_profile, update_xp_profile, pyDict_eq_self ndS]
  constructor
  · rw [hd]
    exact hperm
  · intro t
    rw [hd]
    exact alookup_perm hperm ndS t

/-- C5 witness at a concrete profile. -/
theorem replaceProfile_getProfile_roundtrip_witness :
    NodupKeys [("maid", (1 : ℚ)), ("silver_hair", 2)] ∧
    alookup "maid" (get_xp_profile (update_xp_profile [("old", 5)]
        [("maid", (1 : ℚ)), ("silver_hair", 2)])) =
      alookup "maid" [("maid", (1 : ℚ)), ("silver_hair", 2)] :=
  ⟨by decide,
   (replaceProfile_getProfile_roundtrip [("old", 5)]
     [("maid", (1 : ℚ)), ("silver_hair", 2)] (by decide)).2 "maid"⟩

/-! ## C6 -/

/-- Lookup passes over an association list that resolves a key to none. -/
theorem alookup_append_of_none {α β : Type} [DecidableEq α] {l1 : List (α × β)} {k : α}
    (l2 : List (α × β)) (h : alookup k l1 = none) :
    alookup k (l1 ++ l2) = alookup k l2 := by
  induction l1 with
  | nil => simp
  | cons p rest ih =>
    obtain ⟨p1, p2⟩ := p
    by_cases hp : p1 = k
    · simp [alookup, hp] at h
    · simp only [alookup, if_neg hp] at h ⊢
      exact ih h

/-- Lookup after the upsert bump of increment_tag_dislike. -/
theorem alookup_bump (tag : String) (bl : BlacklistRows) :
    alookup tag (bl.map fun p => if p.1 = tag then (p.1, p.2 + 1) else p) =
      (alookup tag bl).map (· + 1) := by
  induction bl with
  | nil => simp [alookup]
  | cons p rest ih =>
    obtain ⟨p1, p2⟩ := p
    rw [List.map_cons]
    by_cases hp : p1 = tag
    · subst hp
      rw [if_pos rfl]
      simp [alookup]
    · rw [if_neg hp]
      simp [alookup, hp, ih]

/-- On a table with no row for the tag, increment_tag_dislike inserts a row
with count 1 and returns 1. -/
theorem increment_of_none {tag : String} {bl : BlacklistRows}
    (h : alookup tag bl = none) :
    increment_tag_dislike tag bl = (1, bl ++ [(tag, 1)]) := by
  have hcon : (bl.map Prod.fst).contains tag = false := by
    simp [alookup_eq_none.mp h]
  have hl : alookup tag (bl ++ [(tag, 1)]) = some 1 := by
    rw [alookup_append_of_none _ h]
    simp [alookup]
  unfold increment_tag_dislike
  rw [hcon]
  simp [hl]

/-- On a table whose first row for the tag holds count c,
increment_tag_dislike returns c + 1 and the new table looks up to c + 1. -/
theorem increment_of_some {tag : String} {bl : BlacklistRows} {c : Nat}
    (h : alookup tag bl = some c) :
    (increment_tag_dislike tag bl).1 = c + 1 ∧
    alookup tag (increment_tag_dislike tag bl).2 = some (c + 1) := by
  have hmem : tag ∈ bl.map Prod.fst :=
    List.mem_map_of_mem Prod.fst (alookup_mem h)
  have hcon : (bl.map Prod.fst).contains tag = true := by
    simpa using hmem
  have hb := alookup_bump tag bl
  rw [h] at hb
  unfold increment_tag_dislike
  rw [hcon]
  simp [hb]

/-- After k + 1 successive increments on a tag absent from the table, the
last call returns k + 1 and the table holds count k + 1 for the tag. -/
theorem iterate_dislike_spec (tag : String) (bl : BlacklistRows)
    (h : alookup tag bl = none) :
    ∀ k, (iterate_dislike tag bl (k + 1)).1 = k + 1 ∧
      alookup tag (iterate_dislike tag bl (k + 1)).2 = some (k + 1) := by
  intro k
  induction k with
  | zero =>
    have h1 := increment_of_none h
    constructor
    · simp [iterate_dislike, h1]
    · simp only [iterate_dislike, h1]
      rw [alookup_append_of_none _ h]
      simp [alookup]
  | succ n ih =>
    obtain ⟨h1, h2⟩ := ih
    have h3 := increment_of_some h2
    simpa [iterate_dislike] using h3

/-- A tag holding a count of at least 1 is in the effective blacklist. -/
theorem mem_blacklist_of_lookup {tag : String} {bl : BlacklistRows} {c : Nat}
    (h : alookup tag bl = some c) (hc : 1 ≤ c) : tag ∈ get_blacklisted_tags bl := by
  have hmem := alookup_mem h
  exact List.mem_map.mpr ⟨(tag, c), List.mem_filter.mpr ⟨hmem, by simpa using hc⟩, rfl⟩

/-- C6: starting from a table with no row for the tag, the k-th call of
increment_tag_dislike returns k (the count grows by one per call), and for
every k at least the threshold hard-wired in get_blacklisted_tags (namely 1)
the tag is in the effective blacklist. -/
theorem incrementDislike_count_and_blacklist (bl : BlacklistRows) (tag : String) (k : Nat)
    (h0 : alookup tag bl = none) (hk : 1 ≤ k) :
    (iterate_dislike tag bl k).1 = k ∧
    tag ∈ get_blacklisted_tags (iterate_dislike tag bl k).2 := by
  obtain ⟨n, rfl⟩ : ∃ n, n + 1 = k := ⟨k - 1, by omega⟩
  obtain ⟨h1, h2⟩ := iterate_dislike_spec tag bl h0 n
  exact ⟨h1, mem_blacklist_of_lookup h2 (by omega)⟩

/-- C6 witness: three dislikes of a fresh tag return 3 and blacklist it. -/
theorem incrementDislike_count_and_blacklist_witness :
    alookup "watermark" ([] : BlacklistRows) = none ∧ 1 ≤ 3 ∧
    ((iterate_dislike "watermark" [] 3).1 = 3 ∧
      "watermark" ∈ get_blacklisted_tags (iterate_dislike "watermark" [] 3).2) :=
  ⟨by decide, by decide,
   incrementDislike_count_and_blacklist [] "watermark" 3 (by decide) (by decide)⟩

/-! ## C10 -/

/-- C10: get_best_search_tag is total with an identity fallback: with no
matching row it returns the canonical tag itself, and otherwise it returns
the original tag of a matching row of maximal recorded frequency. -/
theorem bestSearchTag_total_max (rows : List TagMapRow) (t : String) :
    (rows.filter (fun r => r.normalized_tag = t) = [] →
      get_best_search_tag rows t = t) ∧
    (rows.filter (fun r => r.normalized_tag = t) ≠ [] →
      ∃ r ∈ rows.filter (fun r => r.normalized_tag = t),
        get_best_search_tag rows t = r.original_tag ∧
        ∀ s ∈ rows.filter (fun r => r.normalized_tag = t),
          s.frequency ≤ r.frequency) := by
  have hperm := List.perm_insertionSort freqDesc (rows.filter (fun r => r.normalized_tag = t))
  constructor
  · intro h
    unfold get_best_search_tag
    rw [h]
    rfl
  · intro h
    rcases hs : List.insertionSort freqDesc (rows.filter (fun r => r.normalized_tag = t))
      with _ | ⟨r, rest⟩
    · exfalso
      have hlen := hperm.length_eq
      rw [hs] at hlen
      exact h (List.length_eq_zero.mp hlen.symm)
    · have hrmem : r ∈ rows.filter (fun r => r.normalized_tag = t) :=
        hperm.mem_iff.mp (by rw [hs]; exact List.mem_cons_self _ _)
      refine ⟨r, hrmem, ?_, ?_⟩
      · unfold get_best_search_tag
        rw [hs]
      · intro s hsmem
        have hs2 : s ∈ List.insertionSort freqDesc (rows.filter (fun r => r.normalized_tag = t)) :=
          hperm.mem_iff.mpr hsmem
        rw [hs] at hs2
        rcases List.mem_cons.mp hs2 with he | htail
        · subst he
          exact le_refl _
        · have hsort := List.sorted_insertionSort freqDesc
            (rows.filter (fun r => r.normalized_tag = t))
          rw [hs] at hsort
          exact List.rel_of_sorted_cons hsort s htail

/-- C10 witness: with two recorded raw spellings the highest-frequency one
is selected, and on an empty table the canonical tag itself comes back. -/
theorem bestSearchTag_total_max_witness :
    ((([⟨"maid", "メイド", 3⟩, ⟨"maid", "maid", 7⟩] : List TagMapRow).filter
        (fun r => r.normalized_tag = "maid")) ≠ [] ∧
      (∃ r ∈ ([⟨"maid", "メイド", 3⟩, ⟨"maid", "maid", 7⟩] : List TagMapRow).filter
          (fun r => r.normalized_tag = "maid"),
        get_best_search_tag [⟨"maid", "メイド", 3⟩, ⟨"maid", "maid", 7⟩] "maid" =
          r.original_tag ∧
        ∀ s ∈ ([⟨"maid", "メイド", 3⟩, ⟨"maid", "maid", 7⟩] : List TagMapRow).filter
            (fun r => r.normalized_tag = "maid"),
          s.frequency ≤ r.frequency)) ∧
    (([] : List TagMapRow).filter (fun r => r.normalized_tag = "maid") = [] →
      get_best_search_tag [] "maid" = "maid") :=
  ⟨⟨by decide,
    (bestSearchTag_total_max [⟨"maid", "メイド", 3⟩, ⟨"maid", "maid", 7⟩] "maid").2
      (by decide)⟩,
   (bestSearchTag_total_max [] "maid").1⟩

/-! ## C7 -/

/-- C7: multi-page dispatch of the long-poll notifier in single mode, for
non-ugoira works and max_pages at least 1: one page goes out as a single
photo; 2 to max_pages pages in album mode go out as a media group; more
pages than max_pages go out cover-only with the long-work annotation; in
particular with max_pages = 1 every multi-page work goes out cover-only. -/
theorem sendSingle_multipage_policy (ill_type mode : String) (max_pages page_count : Nat)
    (hty : ill_type ≠ "ugoira") (hmp : 1 ≤ max_pages) :
    (page_count = 1 →
      send_single_kind ill_type mode max_pages page_count = .photo false) ∧
    (2 ≤ page_count → page_count ≤ max_pages → mode = "album" →
      send_single_kind ill_type mode max_pages page_count = .mediaGroup) ∧
    (max_pages < page_count →
      send_single_kind ill_type mode max_pages page_count = .photo true) ∧
    (max_pages = 1 → 2 ≤ page_count →
      send_single_kind ill_type mode max_pages page_count = .photo true) := by
  refine ⟨?_, ?_, ?_, ?_⟩
  · intro h1
    subst h1
    simp [send_single_kind, hty, Nat.not_lt.mpr hmp]
  · intro h2 h3 h4
    subst h4
    have hne : page_count ≠ 1 := by omega
    have hm : ("album" : String) ≠ "cover_link" := by decide
    simp [send_single_kind, hty, Nat.not_lt.mpr h3, hne, hm]
  · intro h
    simp [send_single_kind, hty, h]
  · intro h1 h2
    subst h1
    have h : 1 < page_count := by omega
    simp [send_single_kind, hty, h]

/-- C7 witness at concrete page counts and modes. -/
theorem sendSingle_multipage_policy_witness :
    ("illust" : String) ≠ "ugoira" ∧ (1 : Nat) ≤ 1 ∧
    send_single_kind "illust" "album" 1 5 = .photo true ∧
    send_single_kind "illust" "album" 10 3 = .mediaGroup ∧
    send_single_kind "illust" "album" 10 1 = .photo false :=
  ⟨by decide, by decide,
   (sendSingle_multipage_policy "illust" "album" 1 5 (by decide) (by decide)).2.2.2
     rfl (by decide),
   (sendSingle_multipage_policy "illust" "album" 10 3 (by decide) (by decide)).2.1
     (by decide) (by decide) rfl,
   (sendSingle_multipage_policy "illust" "album" 10 1 (by decide) (by decide)).1 rfl⟩

/-! ## C2 -/

/-- Every search call issued by the pair loop carries bookmark_threshold =
search threshold // 2, provided every call already accumulated does. -/
theorem discover_pairs_thresholds (stats : List TagMapRow)
    (search_threshold date_range limit : Nat) (client : SearchCall → List Nat) :
    ∀ (pairs : List (String × String × ℚ)) (st : PairLoopState),
      (∀ c ∈ st.calls, c.bookmark_threshold = search_threshold / 2) →
      ∀ c ∈ (discover_pairs stats search_threshold date_range limit client pairs st).calls,
        c.bookmark_threshold = search_threshold / 2 := by
  intro pairs
  induction pairs with
  | nil =>
    intro st hst
    simpa [discover_pairs] using hst
  | cons p rest ih =>
    obtain ⟨t1, t2, w⟩ := p
    intro st hst
    simp only [discover_pairs]
    split_ifs <;>
      first
        | exact hst
        | exact ih st hst
        | exact ih _ hst
        | (refine ih _ fun c hc => ?_
           rcases List.mem_append.mp hc with hmem | hmem
           · exact hst c hmem
           · rw [List.mem_singleton.mp hmem])


/-- C2 amended: every pair query issued by the profile-driven search phase
uses bookmark_threshold = configured search threshold // 2, independent of
any tag weight; the weight-based adaptive formula of the claim is never
applied. -/
theorem pairQuery_threshold_is_half_base (db_pairs : List (String × String × ℚ))
    (stats : List TagMapRow) (search_threshold date_range limit : Nat)
    (client : SearchCall → List Nat) :
    ∀ c ∈ (discover_pair_phase db_pairs stats search_threshold date_range
        limit client).calls,
      c.bookmark_threshold = search_threshold / 2 :=
  discover_pairs_thresholds stats search_threshold date_range limit client
    (get_top_tag_pairs db_pairs 50) ⟨[], [], []⟩ (by simp)

/-- C2 witness: a concrete pair search issues threshold 1000 // 2. -/
theorem pairQuery_threshold_is_half_base_witness :
    (⟨["メイド", "水着"], 500, 7, 30⟩ : SearchCall) ∈
      (discover_pair_phase [("maid", "swimsuit", (1 / 5 : ℚ))] [] 1000 7 400
        (fun _ => [])).calls ∧
    (⟨["メイド", "水着"], 500, 7, 30⟩ : SearchCall).bookmark_threshold = 1000 / 2 :=
  ⟨by decide,
   pairQuery_threshold_is_half_base [("maid", "swimsuit", (1 / 5 : ℚ))] [] 1000 7 400
     (fun _ => []) _ (by decide)⟩

/-- C2 counterexample: with base 1000 the pair search issued by discover
uses threshold 500 (base // 2), while the claimed formula
max(100, base × max(0.3, w) × 0.5) yields 150 at normalized weight 0.2; the
two disagree, so the claim fails on the code. -/
theorem pairQuery_threshold_claim_counterexample :
    (discover_pair_phase [("maid", "swimsuit", (1 / 5 : ℚ))] [] 1000 7 400
        (fun _ => [])).calls = [⟨["メイド", "水着"], 500, 7, 30⟩] ∧
    adaptive_threshold_weight 1000 (1 / 5) true = 150 ∧
    (500 : Nat) ≠ 150 := by
  refine ⟨by decide, ?_, by decide⟩
  have h1 : max (3 / 10 : ℚ) (1 / 5) = 3 / 10 := by norm_num
  have h2 : ((1000 : ℤ) : ℚ) * ((3 / 10 : ℚ) * (1 / 2)) = 150 := by norm_num
  simp only [adaptive_threshold_weight, h1, if_pos, h2]
  norm_num [pyInt]

/-! ## C3 -/

/-- C3 counterexample: a work contributed only by the ranking strategy whose
author is not a manually subscribed artist is recorded with source search,
not ranking. -/
theorem pushSource_ranking_counterexample :
    record_pushes [9001] [⟨9001, 555, 1, "illust"⟩] [] = [(9001, "search")] ∧
    ("search" : String) ≠ "ranking" :=
  ⟨by decide, by decide⟩

/-- C3 amended: the source recorded by main_task for a sent work is derived
from the author, not from the producing strategy: subscription when the
author is in the manually configured subscribed-artists set, search in every
other case; the value ranking is never recorded. -/
theorem pushSource_author_based (sent : List Nat) (filtered : List Illust)
    (manual_subs : List Nat) :
    ∀ p ∈ record_pushes sent filtered manual_subs,
      (∃ ill, alookup p.1 (pyDict (filtered.map fun i => (i.id, i))) = some ill ∧
        p.2 = push_source ill.user_id manual_subs) ∧
      (p.2 = "subscription" ∨ p.2 = "search") := by
  intro p hp
  simp only [record_pushes, List.mem_filterMap] at hp
  obtain ⟨pid, _hpid, hsome⟩ := hp
  rcases hx : alookup pid (pyDict (filtered.map fun i => (i.id, i))) with _ | ill
  · rw [hx] at hsome
    simp at hsome
  · rw [hx] at hsome
    simp only [Option.map_some'] at hsome
    obtain rfl := Option.some.inj hsome
    refine ⟨⟨ill, hx, rfl⟩, ?_⟩
    show push_source ill.user_id manual_subs = "subscription" ∨
      push_source ill.user_id manual_subs = "search"
    unfold push_source
    split
    · exact Or.inl rfl
    · exact Or.inr rfl

/-- C3 witness: a concrete recorded push has an author-derived source. -/
theorem pushSource_author_based_witness :
    ((9001 : Nat), ("search" : String)) ∈
      record_pushes [9001] [⟨9001, 555, 1, "illust"⟩] [] ∧
    (((9001 : Nat), ("search" : String)).2 = "subscription" ∨
      ((9001 : Nat), ("search" : String)).2 = "search") :=
  ⟨by decide,
   (pushSource_author_based [9001] [⟨9001, 555, 1, "illust"⟩] [] _ (by decide)).2⟩

/-! ## C4 -/

/-- C4 counterexample: an unauthorized button callback and an unauthorized
gated command both receive an explicit no-permission acknowledgment from
the Telegram notifier, and the ungated /help command replies its help text
to the same unauthorized sender. -/
theorem unauthorized_ack_counterexample :
    callback_auth_reply [42] 7 = some (.alertNoPermission 7) ∧
    command_auth_reply [42] 7 = some (.textNoPermission 7) ∧
    help_command_reply [42] 7 = some .helpText ∧
    some (AuthReply.alertNoPermission 7) ≠ none :=
  ⟨by decide, by decide, by decide, by decide⟩

/-- C4 amended: unauthorized senders are silently ignored by the Telegram
plain-text message handler and, when a nonzero master id is configured, by
the OneBot message handler; but the Telegram button-callback handler answers
with a no-permission alert, the gated Telegram command handlers reply with a
no-permission text, and the ungated /help command replies its help text to
any sender. -/
theorem unauthorized_handling_amended (allowed : List Nat) (user master sender : Nat)
    (msg : String) (h : telegram_allowed allowed user = false) (hm : master ≠ 0)
    (h2 : sender ≠ master) :
    callback_auth_reply allowed user = some (.alertNoPermission user) ∧
    command_auth_reply allowed user = some (.textNoPermission user) ∧
    help_command_reply allowed user = some .helpText ∧
    message_auth_reply allowed user = none ∧
    onebot_process_message (some master) sender msg = [] := by
  refine ⟨?_, ?_, rfl, rfl, ?_⟩
  · simp [callback_auth_reply, h]
  · simp [command_auth_reply, h]
  · simp [onebot_process_message, hm, h2]

/-- C4 witness at a concrete allow-list, master id and sender. -/
theorem unauthorized_handling_amended_witness :
    telegram_allowed [42] 7 = false ∧ (42 : Nat) ≠ 0 ∧ (7 : Nat) ≠ 42 ∧
    (callback_auth_reply [42] 7 = some (.alertNoPermission 7) ∧
      command_auth_reply [42] 7 = some (.textNoPermission 7) ∧
      help_command_reply [42] 7 = some .helpText ∧
      message_auth_reply [42] 7 = none ∧
      onebot_process_message (some 42) 7 "123 1" = []) :=
  ⟨by decide, by decide, by decide,
   unauthorized_handling_amended [42] 7 42 7 "123 1" (by decide) (by decide) (by decide)⟩

/-! ## C8 -/

/-- Dict insertion grows the map by at most one entry. -/
theorem dictInsert_length_le {α β : Type} [DecidableEq α] (m : List (α × β)) (k : α) (v : β) :
    (dictInsert m k v).length ≤ m.length + 1 := by
  unfold dictInsert
  split
  · simp
  · simp

/-- Folding dict insertion grows the map by at most the number of inserted
entries. -/
theorem foldl_dictInsert_length_le {α β : Type} [DecidableEq α] :
    ∀ (sent m : List (α × β)),
      (sent.foldl (fun acc p => dictInsert acc p.1 p.2) m).length ≤ m.length + sent.length
  | [], m => by simp
  | s :: rest, m => by
    have h1 := dictInsert_length_le m s.1 s.2
    have h2 := foldl_dictInsert_length_le rest (dictInsert m s.1 s.2)
    simp only [List.foldl_cons, List.length_cons]
    omega

/-- The photo-path eviction keeps a map of at most 300 entries within the
200-entry bound. -/
theorem photo_evict_le (l : MessageMap) (h : l.length ≤ 300) :
    (photo_evict l).length ≤ 200 := by
  unfold photo_evict
  split
  · rw [List.length_drop]
    omega
  · next hgt =>
    omega

/-- C8 counterexample: a video send on a map already holding 200 entries
completes with 201 entries, because the eviction runs only on the photo
path; the claimed 200-entry bound after every send operation fails. -/
theorem messageMap_bound_counterexample :
    (send_video_map ((List.range 200).map fun i => (i, i)) [(999, 1)]).length = 201 ∧
    ¬ (send_video_map ((List.range 200).map fun i => (i, i)) [(999, 1)]).length ≤ 200 := by
  have h999 : (999 : Nat) ∉ (((List.range 200).map fun i => (i, i)).map Prod.fst) := by
    intro hmem
    rw [List.map_map] at hmem
    obtain ⟨x, hx, he⟩ := List.mem_map.mp hmem
    have hlt := List.mem_range.mp hx
    have hx999 : x = 999 := he
    omega
  have hcon : ((((List.range 200).map fun i => (i, i)).map Prod.fst).contains 999) = false := by
    simp [h999]
  have hmain : send_video_map ((List.range 200).map fun i => (i, i)) [(999, 1)] =
      ((List.range 200).map fun i => (i, i)) ++ [(999, 1)] := by
    unfold send_video_map
    simp only [List.foldl_cons, List.foldl_nil]
    unfold dictInsert
    rw [hcon]
    simp
  rw [hmain]
  simp

/-- C8 amended: the 200-entry bound with oldest-100 eviction holds after a
photo send that records at most 100 messages into a map of at most 200
entries; a media-group send never writes the map; a video send records its
message with no eviction at all, so the map grows past any bound on that
path. -/
theorem messageMap_bounds_amended (m : MessageMap) (sent : List (Nat × Nat))
    (msg_id iid : Nat) (h1 : m.length ≤ 200) (h2 : sent.length ≤ 100)
    (h3 : msg_id ∉ m.map Prod.fst) :
    (send_photo_map m sent).length ≤ 200 ∧
    send_media_group_map m = m ∧
    (send_video_map m [(msg_id, iid)]).length = m.length + 1 := by
  refine ⟨?_, rfl, ?_⟩
  · have hf := foldl_dictInsert_length_le sent m
    exact photo_evict_le _ (le_trans hf (by omega))
  · have hcon : (m.map Prod.fst).contains msg_id = false := by simp [h3]
    unfold send_video_map
    simp only [List.foldl_cons, List.foldl_nil]
    unfold dictInsert
    rw [hcon]
    simp

/-- C8 witness at a small concrete map. -/
theorem messageMap_bounds_amended_witness :
    ([] : MessageMap).length ≤ 200 ∧ ([] : List (Nat × Nat)).length ≤ 100 ∧
    (1 : Nat) ∉ ([] : MessageMap).map Prod.fst ∧
    ((send_photo_map [] []).length ≤ 200 ∧
      send_media_group_map [] = [] ∧
      (send_video_map ([] : MessageMap) [(1, 2)]).length = ([] : MessageMap).length + 1) :=
  ⟨by decide, by decide, by decide,
   messageMap_bounds_amended [] [] 1 2 (by decide) (by decide) (by decide)⟩

end PixivXP
